import Mathlib

/-!
# examples/video/main.go

A shallow embedding of the video-generation example program.  The program is a
straight-line sequence of calls into the candle binding and the filesystem, so
it is modelled as a state-passing function over an explicit `World`: every call
of the binding, of `os.MkdirAll` and of `filepath.Dir` is a field of the world,
and `main` threads the world state through the calls in source order while
recording each call, with its arguments and its outcome, in a trace.

The trace is what `main` itself writes down.  The claims about which calls are
made, and in which order, are stated on `callLog` instead: the calls as the
world recorded them, each entry being appended by the call itself to a log kept
in the world state (`recording`).  An entry is there only if the call was made,
and only on the state the call received.

Conventions.
* Go `int` flag values are `Int`; the only arithmetic on them is `% 32`, which
  is Go's truncated remainder (`Int.tmod`) and cannot overflow.
* `float64` / `float32` values are carried as IEEE bit patterns (`Nat`); the
  conversion `float32(_)` and the `%.1f` rendering are fields of the world.
* A Go `error` is carried as its `Error()` text.
* `log.Fatal` / `log.Fatalf` write the message and call `os.Exit(1)`: the run
  stops there and deferred calls are not executed.  A normal return from `main`
  runs the deferred calls in reverse order and exits with status 0.
* Every call of the binding is assumed to return; `flag.Parse` is assumed to
  have succeeded and its result is the `Flags` record.
-/

namespace VideoExample

/-- IEEE-754 binary64 value, as its bit pattern. -/
abbrev Float64 := Nat

/-- IEEE-754 binary32 value, as its bit pattern. -/
abbrev Float32 := Nat

/-- Handle of a loaded pipeline (`*candle.VideoPipeline`). -/
abbrev Pipeline := Nat

/-- Result of a fallible call: `Sum.inl` carries the error text. -/
abbrev Res (α : Type) := String ⊕ α

/-- The record `candle.VideoConfig` as built at lines 47-50. -/
structure VideoConfig where
  ModelID : String
  CacheDir : String
  deriving DecidableEq, Repr

/-- The record `candle.VideoGenerationParams` as built at lines 60-68. -/
structure VideoGenerationParams where
  Height : Int
  Width : Int
  NumFrames : Int
  NumInferenceSteps : Int
  GuidanceScale : Float32
  FrameRate : Int
  Seed : Nat
  deriving DecidableEq, Repr

/-- The result handle returned by `pipeline.Generate`, with the two fields the
program reads. -/
structure VideoResult where
  handle : Nat
  FrameCount : Int
  FPS : Int
  deriving DecidableEq, Repr

/-- The values of the twelve command-line flags after `flag.Parse` (lines 23-35). -/
structure Flags where
  model : String
  cache : String
  output : String
  gif : String
  prompt : String
  height : Int
  width : Int
  frames : Int
  steps : Int
  guidance : Float64
  fps : Int
  seed : Nat
  deriving DecidableEq, Repr

/-- The flag defaults of lines 23-34 (`3.0` is `0x4008000000000000`). -/
def defaultFlags : Flags :=
  { model := "Lightricks/LTX-Video-2b-v0.9"
    cache := ""
    output := "./output"
    gif := ""
    prompt := "A cat playing piano in a cozy living room, cinematic lighting"
    height := 512
    width := 704
    frames := 65
    steps := 30
    guidance := 0x4008000000000000
    fps := 24
    seed := 0 }

/-- One observable step of a run: a call with its arguments and outcome, or a
line written to standard output or to the logger. -/
inductive Event where
  | init (err : Option String)
  | version (v : String)
  | isVideoAvailable (b : Bool)
  | newVideoPipeline (cfg : VideoConfig) (res : Res Pipeline)
  | generate (p : Pipeline) (prompt : String) (params : VideoGenerationParams)
      (res : Res VideoResult)
  | pipelineClose (p : Pipeline)
  | resultClose (r : VideoResult)
  | mkdirAll (path : String) (perm : Nat) (err : Option String)
  | saveFrames (r : VideoResult) (dir : String) (err : Option String)
  | saveGIF (r : VideoResult) (path : String) (err : Option String)
  | stdout (text : String)
  | logPrintf (msg : String)
  | logFatal (msg : String)
  deriving DecidableEq, Repr

/-- The behaviour of everything `main` calls, over a world state `σ`. -/
structure World (σ : Type) where
  init : σ → Option String × σ
  version : σ → String × σ
  isVideoAvailable : σ → Bool × σ
  newVideoPipeline : VideoConfig → σ → Res Pipeline × σ
  generate : Pipeline → String → VideoGenerationParams → σ → Res VideoResult × σ
  pipelineClose : Pipeline → σ → σ
  resultClose : VideoResult → σ → σ
  mkdirAll : String → Nat → σ → Option String × σ
  saveFrames : VideoResult → String → σ → Option String × σ
  saveGIF : VideoResult → String → σ → Option String × σ
  filepathDir : String → String
  toFloat32 : Float64 → Float32
  fmtF1 : Float64 → String

/-- What a run leaves behind: the trace in execution order, the process exit
status and the final world state. -/
structure Outcome (σ : Type) where
  trace : List Event
  exit : Nat
  world : σ

/-- Record one event in front of the rest of the run. -/
def emit {σ : Type} (e : Event) (o : Outcome σ) : Outcome σ :=
  { o with trace := e :: o.trace }

/-- The calls `log.Fatal` and `log.Fatalf`: the message, then `os.Exit(1)`.
The process ends there, so the rest of `main` and its deferred calls do not run. -/
def fatal {σ : Type} (msg : String) (s : σ) : Outcome σ :=
  { trace := [Event.logFatal msg], exit := 1, world := s }

/-- The file mode `0755` passed to `os.MkdirAll`. -/
def perm0755 : Nat := 0o755

/-- The dimension test of line 37: `*height%32 != 0 || *width%32 != 0`. -/
def dimsRejected (height width : Int) : Bool :=
  height.tmod 32 != 0 || width.tmod 32 != 0

/-- Lines 90-107 and the deferred calls of lines 75 and 57: the optional GIF
save, the final line, then `result.Close()` and `pipeline.Close()`. -/
def gifStage {σ : Type} (w : World σ) (fl : Flags) (pipeline : Pipeline)
    (result : VideoResult) (s : σ) : Outcome σ :=
  let done (s : σ) : Outcome σ :=
    emit (.stdout "\nDone!\n") <|
    emit (.resultClose result) <|
    emit (.pipelineClose pipeline) <|
    { trace := [], exit := 0, world := w.pipelineClose pipeline (w.resultClose result s) }
  let save (s : σ) : Outcome σ :=
    emit (.stdout ("\nSaving GIF to " ++ fl.gif ++ "...\n")) <|
    match w.saveGIF result fl.gif s with
    | (some e, s1) =>
      emit (.saveGIF result fl.gif (some e)) <|
      emit (.logPrintf ("Warning: Failed to save GIF: " ++ e)) <|
      done s1
    | (none, s1) =>
      emit (.saveGIF result fl.gif none) <|
      emit (.stdout ("GIF saved to " ++ fl.gif ++ "\n")) <|
      done s1
  if fl.gif != "" then
    let gifDir := w.filepathDir fl.gif
    if gifDir != "." && gifDir != "" then
      match w.mkdirAll gifDir perm0755 s with
      | (some e, s1) =>
        emit (.mkdirAll gifDir perm0755 (some e)) <|
        emit (.logPrintf ("Warning: Failed to create GIF directory: " ++ e)) <|
        save s1
      | (none, s1) =>
        emit (.mkdirAll gifDir perm0755 none) <|
        save s1
    else save s
  else done s

/-- Lines 77-88: the summary line, the output directory, the frame save. -/
def saveStage {σ : Type} (w : World σ) (fl : Flags) (pipeline : Pipeline)
    (result : VideoResult) (s : σ) : Outcome σ :=
  emit (.stdout ("Generated " ++ toString result.FrameCount ++ " frames at "
    ++ toString result.FPS ++ " fps\n")) <|
  match w.mkdirAll fl.output perm0755 s with
  | (some e, s1) =>
    emit (.mkdirAll fl.output perm0755 (some e)) <|
    fatal ("Failed to create output directory: " ++ e) s1
  | (none, s1) =>
    emit (.mkdirAll fl.output perm0755 none) <|
    emit (.stdout ("\nSaving frames to " ++ fl.output ++ "...\n")) <|
    match w.saveFrames result fl.output s1 with
    | (some e, s2) =>
      emit (.saveFrames result fl.output (some e)) <|
      emit (.logPrintf ("Warning: Failed to save frames: " ++ e)) <|
      gifStage w fl pipeline result s2
    | (none, s2) =>
      emit (.saveFrames result fl.output none) <|
      emit (.stdout ("Frames saved to " ++ fl.output ++ "/\n")) <|
      gifStage w fl pipeline result s2

/-- The parameters built at lines 60-68. -/
def mkParams {σ : Type} (w : World σ) (fl : Flags) : VideoGenerationParams :=
  { Height := fl.height
    Width := fl.width
    NumFrames := fl.frames
    NumInferenceSteps := fl.steps
    GuidanceScale := w.toFloat32 fl.guidance
    FrameRate := fl.fps
    Seed := fl.seed }

/-- Lines 41-75: the request summary, the pipeline and the generation. -/
def pipelineStage {σ : Type} (w : World σ) (fl : Flags) (s : σ) : Outcome σ :=
  emit (.stdout "\n--- Video Generation ---\n") <|
  emit (.stdout ("Model: " ++ fl.model ++ "\n")) <|
  emit (.stdout ("Prompt: " ++ fl.prompt ++ "\n")) <|
  emit (.stdout ("Resolution: " ++ toString fl.width ++ "x" ++ toString fl.height ++ ", "
    ++ toString fl.frames ++ " frames @ " ++ toString fl.fps ++ " fps\n")) <|
  emit (.stdout ("Steps: " ++ toString fl.steps ++ ", Guidance: "
    ++ w.fmtF1 fl.guidance ++ "\n")) <|
  let cfg : VideoConfig := { ModelID := fl.model, CacheDir := fl.cache }
  emit (.stdout "\nLoading video pipeline...\n") <|
  match w.newVideoPipeline cfg s with
  | (.inl e, s1) =>
    emit (.newVideoPipeline cfg (.inl e)) <|
    fatal ("Failed to create video pipeline: " ++ e) s1
  | (.inr pipeline, s1) =>
    emit (.newVideoPipeline cfg (.inr pipeline)) <|
    emit (.stdout "Pipeline loaded successfully\n") <|
    let params := mkParams w fl
    emit (.stdout "\nGenerating video...\n") <|
    match w.generate pipeline fl.prompt params s1 with
    | (.inl e, s2) =>
      emit (.generate pipeline fl.prompt params (.inl e)) <|
      fatal ("Video generation failed: " ++ e) s2
    | (.inr result, s2) =>
      emit (.generate pipeline fl.prompt params (.inr result)) <|
      saveStage w fl pipeline result s2

/-- The function `main` (lines 13-107) on parsed flags `fl`, from world state `s`. -/
def main {σ : Type} (w : World σ) (fl : Flags) (s : σ) : Outcome σ :=
  match w.init s with
  | (some e, s1) =>
    emit (.init (some e)) <|
    fatal ("Failed to initialize candle: " ++ e) s1
  | (none, s1) =>
    emit (.init none) <|
    match w.version s1 with
    | (v, s2) =>
      emit (.version v) <|
      emit (.stdout ("candle version: " ++ v ++ "\n")) <|
      match w.isVideoAvailable s2 with
      | (false, s3) =>
        emit (.isVideoAvailable false) <|
        fatal ("Video pipeline is not available. "
          ++ "Please rebuild the candle binding with video support.") s3
      | (true, s3) =>
        emit (.isVideoAvailable true) <|
        if dimsRejected fl.height fl.width then
          fatal "Height and width must be divisible by 32" s3
        else
          pipelineStage w fl s3

/-! ## Vocabulary for statements about traces -/

/-- Calls that acquire or use the pipeline: `candle.NewVideoPipeline` and
`pipeline.Generate`. -/
def Event.isPipelineCall : Event → Bool
  | .newVideoPipeline _ _ => true
  | .generate _ _ _ _ => true
  | _ => false

/-- Save attempts: `result.SaveFrames` and `result.SaveGIF`. -/
def Event.isSave : Event → Bool
  | .saveFrames _ _ _ => true
  | .saveGIF _ _ _ => true
  | _ => false

/-- The message `main` passes to `log.Fatal` / `log.Fatalf` when a call of the
fatal class fails (lines 15, 20, 55 and 73); `none` for every other event. -/
def failureMessage : Event → Option String
  | .init (some e) => some ("Failed to initialize candle: " ++ e)
  | .isVideoAvailable false =>
    some ("Video pipeline is not available. "
      ++ "Please rebuild the candle binding with video support.")
  | .newVideoPipeline _ (.inl e) => some ("Failed to create video pipeline: " ++ e)
  | .generate _ _ _ (.inl e) => some ("Video generation failed: " ++ e)
  | _ => none

/-- The request line of line 44 for the given flag values. -/
def requestLine (fl : Flags) : String :=
  "Resolution: " ++ toString fl.width ++ "x" ++ toString fl.height ++ ", "
    ++ toString fl.frames ++ " frames @ " ++ toString fl.fps ++ " fps\n"

/-- The line of line 77 for a frame count `n` and a frame rate `f`. -/
def generatedLine (n f : Int) : String :=
  "Generated " ++ toString n ++ " frames at " ++ toString f ++ " fps\n"

/-- `AllSplits R acc t`: the relation `R before e after` holds at every
position of `t`, where `acc` holds the events that came before `t`. -/
def AllSplits (R : List Event → Event → List Event → Prop) :
    List Event → List Event → Prop
  | _, [] => True
  | acc, e :: t => R acc e t ∧ AllSplits R (acc ++ [e]) t

/-- A failing call of the fatal class is followed by the fatal message only. -/
def stopsAfter (post : List Event) (e : Event) : Prop :=
  match failureMessage e with
  | some msg => post = [Event.logFatal msg]
  | none => True

/-- A save attempt has the successful creation of the output directory before it. -/
def outputDirBefore (fl : Flags) (pre : List Event) (e : Event) : Prop :=
  e.isSave = true → Event.mkdirAll fl.output perm0755 none ∈ pre

/-- What follows a failed `SaveFrames` call when the `gif` flag is set. -/
def gifSaveAfter (fl : Flags) (post : List Event) : Event → Prop
  | .saveFrames r _ (some _) => fl.gif ≠ "" → ∃ x, Event.saveGIF r fl.gif x ∈ post
  | _ => True

/-- What follows a failed `os.MkdirAll`: after the output directory has been
created the failure is the GIF directory's and the run goes on to the GIF save
and to completion; otherwise it is the output directory's and the run stops. -/
def mkdirFailureOutcome {σ : Type} (w : World σ) (fl : Flags) (exit : Nat)
    (pre post : List Event) : Event → Prop
  | .mkdirAll p _ (some err) =>
    (Event.mkdirAll fl.output perm0755 none ∈ pre →
      exit = 0 ∧ p = w.filepathDir fl.gif ∧
      (∃ r x rest, post =
        Event.logPrintf ("Warning: Failed to create GIF directory: " ++ err) ::
        Event.stdout ("\nSaving GIF to " ++ fl.gif ++ "...\n") ::
        Event.saveGIF r fl.gif x :: rest) ∧
      Event.stdout "\nDone!\n" ∈ post ∧ ∀ msg, Event.logFatal msg ∉ post) ∧
    (Event.mkdirAll fl.output perm0755 none ∉ pre →
      exit = 1 ∧ p = fl.output ∧
      post = [Event.logFatal ("Failed to create output directory: " ++ err)])
  | _ => True

/-- What follows a successful `Generate` call: the line of line 77 with the
numbers `n` and `f`. -/
def generatedLineAfter (n f : Int) (post : List Event) : Event → Prop
  | .generate _ _ _ (.inr _) => post.head? = some (Event.stdout (generatedLine n f))
  | _ => True

/-! ## The binding as the specification describes it -/

/-- Modelled from the spec: `pipeline.Generate` of the candle binding, whose
code is not among the sources.  The specification describes its result as a
handle "exposing a frame count, a frame rate" and requires a run with
`frames=65, fps=24` to report "exactly 65 frames and 24 fps": a successful
generation returns a result whose frame count and frame rate are the requested
`NumFrames` and `FrameRate`.  Everything else about the call is left to `g`. -/
def specGenerate {σ : Type}
    (g : Pipeline → String → VideoGenerationParams → σ → Res VideoResult × σ) :
    Pipeline → String → VideoGenerationParams → σ → Res VideoResult × σ :=
  fun p prompt params s =>
    match g p prompt params s with
    | (.inr r, s1) =>
      (.inr { r with FrameCount := params.NumFrames, FPS := params.FrameRate }, s1)
    | (.inl e, s1) => (.inl e, s1)

/-- The world `w` with its `Generate` behaving as the specification describes. -/
def World.asSpecified {σ : Type} (w : World σ) : World σ :=
  { w with generate := specGenerate w.generate }

/-! ## Concrete worlds -/

/-- A world given by one fixed outcome per call; the state counts the calls. -/
structure Script where
  initErr : Option String
  version : String
  videoAvailable : Bool
  pipeline : Res Pipeline
  result : Res VideoResult
  mkdirErr : String → Option String
  saveFramesErr : Option String
  saveGIFErr : Option String
  dir : String → String

/-- The world that follows a script. -/
def scripted (sc : Script) : World Nat :=
  { init := fun n => (sc.initErr, n + 1)
    version := fun n => (sc.version, n + 1)
    isVideoAvailable := fun n => (sc.videoAvailable, n + 1)
    newVideoPipeline := fun _ n => (sc.pipeline, n + 1)
    generate := fun _ _ _ n => (sc.result, n + 1)
    pipelineClose := fun _ n => n + 1
    resultClose := fun _ n => n + 1
    mkdirAll := fun path _ n => (sc.mkdirErr path, n + 1)
    saveFrames := fun _ _ n => (sc.saveFramesErr, n + 1)
    saveGIF := fun _ _ n => (sc.saveGIFErr, n + 1)
    filepathDir := sc.dir
    toFloat32 := fun _ => 0x40400000
    fmtF1 := fun _ => "3.0" }

/-- Every call succeeds; the result has 65 frames at 24 fps. -/
def okScript : Script :=
  { initErr := none
    version := "0.1.0"
    videoAvailable := true
    pipeline := .inr 1
    result := .inr { handle := 2, FrameCount := 65, FPS := 24 }
    mkdirErr := fun _ => none
    saveFramesErr := none
    saveGIFErr := none
    dir := fun _ => "out" }

/-- The flag defaults with `-gif out/a.gif`. -/
def gifFlags : Flags := { defaultFlags with gif := "out/a.gif" }

/-- The flag defaults with `-height 500`. -/
def badHeightFlags : Flags := { defaultFlags with height := 500 }

/-- The script in which `candle.Init` fails. -/
def initFailsScript : Script := { okScript with initErr := some "no device" }

/-- The script in which `pipeline.Generate` fails. -/
def generateFailsScript : Script := { okScript with result := .inl "out of memory" }

/-- The script in which creating the directory `out` fails and every other
call succeeds. -/
def gifDirFailsScript : Script :=
  { okScript with
    mkdirErr := fun path => if path = "out" then some "permission denied" else none }

/-- The script in which every `os.MkdirAll` fails. -/
def mkdirFailsScript : Script :=
  { okScript with mkdirErr := fun _ => some "permission denied" }

/-- The script in which `result.SaveFrames` fails. -/
def saveFramesFailsScript : Script := { okScript with saveFramesErr := some "disk full" }

/-- The script in which both saves fail. -/
def savesFailScript : Script :=
  { okScript with saveFramesErr := some "disk full", saveGIFErr := some "disk full" }

/-- What follows a failed save: the warning of line 85 or of line 100. -/
def warningAfter (post : List Event) : Event → Prop
  | .saveFrames _ _ (some e) =>
    post.head? = some (Event.logPrintf ("Warning: Failed to save frames: " ++ e))
  | .saveGIF _ _ (some e) =>
    post.head? = some (Event.logPrintf ("Warning: Failed to save GIF: " ++ e))
  | _ => True

/-- Releases: `result.Close` and `pipeline.Close`. -/
def Event.isClose : Event → Bool
  | .pipelineClose _ => true
  | .resultClose _ => true
  | _ => false

/-- What precedes a `Close` call: the acquisition of the resource it closes,
and no earlier `Close` of a resource of that kind. -/
def closeDiscipline (pre : List Event) : Event → Prop
  | .resultClose r =>
    (∃ p q params, Event.generate p q params (.inr r) ∈ pre) ∧
      ∀ r1, Event.resultClose r1 ∉ pre
  | .pipelineClose p =>
    (∃ cfg, Event.newVideoPipeline cfg (.inr p) ∈ pre) ∧
      ∀ p1, Event.pipelineClose p1 ∉ pre
  | _ => True

/-- In a run that ends with exit status 1 the event is not a `Close` call. -/
def noCloseWhenFatal (exit : Nat) (e : Event) : Prop :=
  exit = 1 → e.isClose = false

/-- The flag defaults with `-height 0 -width -32`. -/
def zeroHeightFlags : Flags := { defaultFlags with height := 0, width := -32 }

/-- The script in which `pipeline.Generate` returns a result that reports 64
frames at 30 fps. -/
def otherCountScript : Script :=
  { okScript with result := .inr { handle := 2, FrameCount := 64, FPS := 30 } }

/-! ## The world's own record of a run -/

/-- The world `w` keeping its own record of the calls made on it: each call is
performed on `w` and appended, with its arguments and its outcome, to the log
carried in the state.  A call that is not made leaves no entry, and a state
that is dropped takes its entries with it. -/
def recording {σ : Type} (w : World σ) : World (σ × List Event) :=
  { init := fun st =>
      match w.init st.1 with
      | (r, s1) => (r, s1, st.2 ++ [Event.init r])
    version := fun st =>
      match w.version st.1 with
      | (r, s1) => (r, s1, st.2 ++ [Event.version r])
    isVideoAvailable := fun st =>
      match w.isVideoAvailable st.1 with
      | (r, s1) => (r, s1, st.2 ++ [Event.isVideoAvailable r])
    newVideoPipeline := fun cfg st =>
      match w.newVideoPipeline cfg st.1 with
      | (r, s1) => (r, s1, st.2 ++ [Event.newVideoPipeline cfg r])
    generate := fun p q params st =>
      match w.generate p q params st.1 with
      | (r, s1) => (r, s1, st.2 ++ [Event.generate p q params r])
    pipelineClose := fun p st => (w.pipelineClose p st.1, st.2 ++ [Event.pipelineClose p])
    resultClose := fun r st => (w.resultClose r st.1, st.2 ++ [Event.resultClose r])
    mkdirAll := fun path perm st =>
      match w.mkdirAll path perm st.1 with
      | (r, s1) => (r, s1, st.2 ++ [Event.mkdirAll path perm r])
    saveFrames := fun res dir st =>
      match w.saveFrames res dir st.1 with
      | (r, s1) => (r, s1, st.2 ++ [Event.saveFrames res dir r])
    saveGIF := fun res path st =>
      match w.saveGIF res path st.1 with
      | (r, s1) => (r, s1, st.2 ++ [Event.saveGIF res path r])
    filepathDir := w.filepathDir
    toFloat32 := w.toFloat32
    fmtF1 := w.fmtF1 }

/-- The calls the world `w` received during the run of `main` from state `s`,
in order, as recorded by the world itself. -/
def callLog {σ : Type} (w : World σ) (fl : Flags) (s : σ) : List Event :=
  (main (recording w) fl (s, [])).world.2

/-- Calls made on the world (the binding and the filesystem), as opposed to
lines written to standard output or to the logger. -/
def Event.isCall : Event → Bool
  | .stdout _ => false
  | .logPrintf _ => false
  | .logFatal _ => false
  | _ => true

/-- The outcome `o` of a run on `w`, seen from the recording world that started
with the log `log`. -/
def recordedOutcome {σ : Type} (o : Outcome σ) (log : List Event) : Outcome (σ × List Event) :=
  { trace := o.trace, exit := o.exit, world := (o.world, log ++ o.trace.filter Event.isCall) }

/-- What precedes a `SaveGIF` call among the calls made: the path is the `gif`
flag, it is not empty, and the call made just before is the `os.MkdirAll` of
`filepath.Dir` of that path, or, when that directory is `.` or empty, the
`SaveFrames` call, so that no directory creation was attempted for it. -/
def gifDirBeforeSave {σ : Type} (w : World σ) (fl : Flags) (pre : List Event) : Event → Prop
  | .saveGIF r path _ => path = fl.gif ∧ fl.gif ≠ "" ∧
      (w.filepathDir fl.gif ≠ "." → w.filepathDir fl.gif ≠ "" →
        ∃ err, pre.getLast? = some (Event.mkdirAll (w.filepathDir fl.gif) perm0755 err)) ∧
      (w.filepathDir fl.gif = "." ∨ w.filepathDir fl.gif = "" →
        ∃ x, pre.getLast? = some (Event.saveFrames r fl.output x))
  | _ => True

/-- What follows, among the calls made, a failed `os.MkdirAll` that comes after
the creation of the output directory: it was the GIF directory's, and the next
call is `SaveGIF` with the `gif` flag's path. -/
def gifSaveAfterDirFailure {σ : Type} (w : World σ) (fl : Flags) (pre post : List Event) :
    Event → Prop
  | .mkdirAll p _ (some _) =>
    Event.mkdirAll fl.output perm0755 none ∈ pre →
      p = w.filepathDir fl.gif ∧ ∃ r x, post.head? = some (Event.saveGIF r fl.gif x)
  | _ => True

/-- The flag defaults with `-gif a.gif`. -/
def plainGifFlags : Flags := { defaultFlags with gif := "a.gif" }

/-- The script in which `filepath.Dir` answers `.` and every call succeeds. -/
def dotDirScript : Script := { okScript with dir := fun _ => "." }

/-- The result every script above returns from `pipeline.Generate`. -/
def sampleResult : VideoResult := { handle := 2, FrameCount := 65, FPS := 24 }

/-- The first five calls of a run with the default model, cache, prompt and
generation parameters in a world where they all succeed: `Init`, `Version`,
`IsVideoAvailable`, `NewVideoPipeline`, `Generate`. -/
def headCalls : List Event :=
  [Event.init none,
   Event.version "0.1.0",
   Event.isVideoAvailable true,
   Event.newVideoPipeline { ModelID := defaultFlags.model, CacheDir := defaultFlags.cache }
     (.inr 1),
   Event.generate 1 defaultFlags.prompt (mkParams (scripted okScript) defaultFlags)
     (.inr sampleResult)]

/-! ## Generic facts -/

theorem allSplits_spec (R : List Event → Event → List Event → Prop) :
    ∀ (t acc : List Event), AllSplits R acc t →
      ∀ (pre : List Event) (e : Event) (post : List Event),
        t = pre ++ e :: post → R (acc ++ pre) e post := by
  intro t
  induction t with
  | nil => intro acc _ pre e post h; simp at h
  | cons a t ih =>
    intro acc hs pre e post h
    obtain ⟨h0, hrest⟩ := hs
    cases pre with
    | nil =>
      simp only [List.nil_append, List.cons.injEq] at h
      obtain ⟨rfl, rfl⟩ := h
      simpa using h0
    | cons b pre =>
      simp only [List.cons_append, List.cons.injEq] at h
      obtain ⟨rfl, rfl⟩ := h
      have := ih (acc ++ [a]) hrest pre e post rfl
      simpa using this

theorem dimsRejected_eq_false_iff (h w : Int) :
    dimsRejected h w = false ↔ (32 : Int) ∣ h ∧ (32 : Int) ∣ w := by
  simp [dimsRejected, Int.dvd_iff_tmod_eq_zero]


theorem stopsAfter_all {σ : Type} (w : World σ) (fl : Flags) (s : σ) :
    AllSplits (fun _ e post => stopsAfter post e) [] (main w fl s).trace := by
  simp only [main, pipelineStage, saveStage, gifStage, emit, fatal]
  repeat' split
  all_goals simp [AllSplits, stopsAfter, failureMessage]

theorem mkdirFailureOutcome_all {σ : Type} (w : World σ) (fl : Flags) (s : σ) :
    AllSplits (fun pre e post => mkdirFailureOutcome w fl (main w fl s).exit pre post e) []
      (main w fl s).trace := by
  simp only [main, pipelineStage, saveStage, gifStage, emit, fatal]
  repeat' split
  all_goals simp [AllSplits, mkdirFailureOutcome]

/-! ## Exit status -/

theorem exit_cases {σ : Type} (w : World σ) (fl : Flags) (s : σ) :
    ((main w fl s).exit = 1 ∧ ∃ msg, (main w fl s).trace.getLast? = some (Event.logFatal msg)) ∨
    ((main w fl s).exit = 0 ∧ Event.stdout "\nDone!\n" ∈ (main w fl s).trace ∧
      ∀ msg, Event.logFatal msg ∉ (main w fl s).trace) := by
  simp only [main, pipelineStage, saveStage, gifStage, emit, fatal]
  repeat' split
  all_goals simp

/-! ## The claims -/

/-- C1, as amended.  When `height` or `width` is not divisible by 32, then for
every behaviour of the world the run ends in a fatal error with exit status 1
and neither `candle.NewVideoPipeline` nor `pipeline.Generate` is called; the
fatal message is "Height and width must be divisible by 32" whenever
`candle.Init` succeeded and `candle.IsVideoAvailable` returned true. -/
theorem bad_dims_fatal_before_pipeline {σ : Type} (w : World σ) (fl : Flags) (s : σ)
    (h : ¬ (32 : Int) ∣ fl.height ∨ ¬ (32 : Int) ∣ fl.width) :
    (main w fl s).exit = 1 ∧
    (∀ e ∈ (main w fl s).trace, e.isPipelineCall = false) ∧
    (∃ msg, (main w fl s).trace.getLast? = some (Event.logFatal msg)) ∧
    (Event.isVideoAvailable true ∈ (main w fl s).trace →
      (main w fl s).trace.getLast? =
        some (Event.logFatal "Height and width must be divisible by 32")) := by
  have hd : dimsRejected fl.height fl.width = true := by
    cases hr : dimsRejected fl.height fl.width
    · rw [dimsRejected_eq_false_iff] at hr; tauto
    · rfl
  unfold main
  split
  · simp [emit, fatal, Event.isPipelineCall]
  · split
    split
    · simp [emit, fatal, Event.isPipelineCall]
    · simp [emit, fatal, Event.isPipelineCall, hd]

/-- Witness for C1 as amended: `-height 500` in a world where every call succeeds. -/
theorem bad_dims_fatal_before_pipeline_witness :
    (¬ (32 : Int) ∣ badHeightFlags.height ∨ ¬ (32 : Int) ∣ badHeightFlags.width) ∧
    (main (scripted okScript) badHeightFlags 0).exit = 1 ∧
    (∀ e ∈ (main (scripted okScript) badHeightFlags 0).trace, e.isPipelineCall = false) ∧
    (∃ msg, (main (scripted okScript) badHeightFlags 0).trace.getLast? =
      some (Event.logFatal msg)) ∧
    (Event.isVideoAvailable true ∈ (main (scripted okScript) badHeightFlags 0).trace →
      (main (scripted okScript) badHeightFlags 0).trace.getLast? =
        some (Event.logFatal "Height and width must be divisible by 32")) :=
  ⟨Or.inl (by decide),
    bad_dims_fatal_before_pipeline (scripted okScript) badHeightFlags 0 (Or.inl (by decide))⟩

/-- Counterexample to C1 as stated: with `-height 500` and `candle.Init`
failing, the run is `Init`, then the fatal message of the initialisation
failure; the message about the dimensions is never written. -/
theorem bad_dims_message_counterexample :
    ¬ (32 : Int) ∣ badHeightFlags.height ∧
    (main (scripted initFailsScript) badHeightFlags 0).trace =
      [Event.init (some "no device"),
       Event.logFatal "Failed to initialize candle: no device"] ∧
    Event.logFatal "Height and width must be divisible by 32" ∉
      (main (scripted initFailsScript) badHeightFlags 0).trace := by
  decide

/-- C2.  A failing call of the fatal class (`candle.Init` returning an error,
`candle.IsVideoAvailable` returning false, `candle.NewVideoPipeline` or
`pipeline.Generate` returning an error) ends the run: the exit status is 1 and
the trace ends with that call followed by its fatal message, so no call of the
binding and no filesystem operation comes after it. -/
theorem fatal_failure_ends_run {σ : Type} (w : World σ) (fl : Flags) (s : σ)
    (e : Event) (msg : String) (he : e ∈ (main w fl s).trace)
    (hm : failureMessage e = some msg) :
    (main w fl s).exit = 1 ∧
    ∃ pre, (main w fl s).trace = pre ++ [e, Event.logFatal msg] := by
  obtain ⟨pre, post, hsplit⟩ := List.append_of_mem he
  have hstop := allSplits_spec _ _ [] (stopsAfter_all w fl s) pre e post hsplit
  simp only [stopsAfter, hm] at hstop
  subst hstop
  refine ⟨?_, pre, hsplit⟩
  rcases exit_cases w fl s with h1 | ⟨_, _, h0⟩
  · exact h1.1
  · exact absurd (by rw [hsplit]; simp) (h0 msg)

/-- Witness for C2: `pipeline.Generate` fails with "out of memory". -/
theorem fatal_failure_ends_run_witness :
    Event.generate 1 defaultFlags.prompt (mkParams (scripted generateFailsScript) defaultFlags)
        (.inl "out of memory") ∈ (main (scripted generateFailsScript) defaultFlags 0).trace ∧
    (main (scripted generateFailsScript) defaultFlags 0).exit = 1 ∧
    ∃ pre, (main (scripted generateFailsScript) defaultFlags 0).trace =
      pre ++ [Event.generate 1 defaultFlags.prompt
          (mkParams (scripted generateFailsScript) defaultFlags) (.inl "out of memory"),
        Event.logFatal "Video generation failed: out of memory"] :=
  ⟨by decide,
    fatal_failure_ends_run (scripted generateFailsScript) defaultFlags 0 _ _ (by decide) rfl⟩

/-- C3, as amended.  A failed `os.MkdirAll` that comes after the output
directory has been created is the one on the GIF file's parent directory
`filepath.Dir(gif)`, and it is not fatal: the warning is logged, the
`result.SaveGIF` attempt follows, the run prints "Done!" and exits with status
0 with no fatal message.  A failed `os.MkdirAll` that does not come after the
creation of the output directory is the one on the output directory, and it is
fatal: the fatal message follows it, nothing else does, and the exit status is 1. -/
theorem mkdir_failure_outcome {σ : Type} (w : World σ) (fl : Flags) (s : σ)
    (pre post : List Event) (p : String) (m : Nat) (err : String)
    (h : (main w fl s).trace = pre ++ Event.mkdirAll p m (some err) :: post) :
    (Event.mkdirAll fl.output perm0755 none ∈ pre →
      (main w fl s).exit = 0 ∧ p = w.filepathDir fl.gif ∧
      (∃ r x rest, post =
        Event.logPrintf ("Warning: Failed to create GIF directory: " ++ err) ::
        Event.stdout ("\nSaving GIF to " ++ fl.gif ++ "...\n") ::
        Event.saveGIF r fl.gif x :: rest) ∧
      Event.stdout "\nDone!\n" ∈ post ∧ ∀ msg, Event.logFatal msg ∉ post) ∧
    (Event.mkdirAll fl.output perm0755 none ∉ pre →
      (main w fl s).exit = 1 ∧ p = fl.output ∧
      post = [Event.logFatal ("Failed to create output directory: " ++ err)]) := by
  have key := allSplits_spec _ _ [] (mkdirFailureOutcome_all w fl s) pre _ post h
  simpa [mkdirFailureOutcome] using key

/-- Witness for C3 as amended: `-gif out/a.gif` in a world where creating `out` fails. -/
theorem mkdir_failure_outcome_witness :
    (main (scripted gifDirFailsScript) gifFlags 0).exit = 0 ∧
    Event.stdout "\nDone!\n" ∈ (main (scripted gifDirFailsScript) gifFlags 0).trace.drop 20 ∧
    ∃ r x rest, (main (scripted gifDirFailsScript) gifFlags 0).trace.drop 20 =
      Event.logPrintf "Warning: Failed to create GIF directory: permission denied" ::
      Event.stdout "\nSaving GIF to out/a.gif...\n" ::
      Event.saveGIF r "out/a.gif" x :: rest :=
  have h := (mkdir_failure_outcome (scripted gifDirFailsScript) gifFlags 0
    ((main (scripted gifDirFailsScript) gifFlags 0).trace.take 19)
    ((main (scripted gifDirFailsScript) gifFlags 0).trace.drop 20)
    "out" perm0755 "permission denied" (by decide)).1 (by decide)
  ⟨h.1, h.2.2.2.1, h.2.2.1⟩

/-- Counterexample to C3 as stated: when `os.MkdirAll` on the output directory
fails the run stops with exit status 1; no save is attempted and "Done!" is not
printed. -/
theorem output_dir_failure_counterexample :
    Event.mkdirAll defaultFlags.output perm0755 (some "permission denied") ∈
      (main (scripted mkdirFailsScript) defaultFlags 0).trace ∧
    (main (scripted mkdirFailsScript) defaultFlags 0).exit = 1 ∧
    (main (scripted mkdirFailsScript) defaultFlags 0).trace.getLast? =
      some (Event.logFatal "Failed to create output directory: permission denied") ∧
    Event.stdout "\nDone!\n" ∉ (main (scripted mkdirFailsScript) defaultFlags 0).trace ∧
    ∀ e ∈ (main (scripted mkdirFailsScript) defaultFlags 0).trace, e.isSave = false := by
  decide

/-- Counterexample to C7 as stated: with `-gif out/a.gif` and the creation of
`out` failing, `result.SaveGIF("out/a.gif")` is still called, and no successful
`os.MkdirAll` of `out` comes before it. -/
theorem gif_dir_not_created_counterexample :
    (main (scripted gifDirFailsScript) gifFlags 0).trace =
      (main (scripted gifDirFailsScript) gifFlags 0).trace.take 22 ++
        Event.saveGIF { handle := 2, FrameCount := 65, FPS := 24 } "out/a.gif" none ::
        (main (scripted gifDirFailsScript) gifFlags 0).trace.drop 23 ∧
    Event.mkdirAll "out" perm0755 (some "permission denied") ∈
      (main (scripted gifDirFailsScript) gifFlags 0).trace.take 22 ∧
    Event.mkdirAll "out" perm0755 none ∉
      (main (scripted gifDirFailsScript) gifFlags 0).trace.take 22 := by
  decide

theorem warningAfter_all {σ : Type} (w : World σ) (fl : Flags) (s : σ) :
    AllSplits (fun _ e post => warningAfter post e) [] (main w fl s).trace := by
  simp only [main, pipelineStage, saveStage, gifStage, emit, fatal]
  repeat' split
  all_goals simp [AllSplits, warningAfter]

theorem completes_of_output_dir {σ : Type} (w : World σ) (fl : Flags) (s : σ) :
    Event.mkdirAll fl.output perm0755 none ∈ (main w fl s).trace →
    (main w fl s).exit = 0 ∧
    Event.stdout "\nDone!\n" ∈ (main w fl s).trace ∧
    (∀ msg, Event.logFatal msg ∉ (main w fl s).trace) := by
  simp only [main, pipelineStage, saveStage, gifStage, emit, fatal]
  repeat' split
  all_goals simp

theorem mem_of_head? {l : List Event} {a : Event} (h : l.head? = some a) : a ∈ l := by
  cases l with
  | nil => simp at h
  | cons b t =>
    simp only [List.head?_cons, Option.some.injEq] at h
    simp [h]

/-- C4.  When generation succeeded and the output directory was created, the
run completes for every outcome of `result.SaveFrames` and `result.SaveGIF`:
the exit status is 0, "Done!" is printed and no fatal message is written; a
save that fails is answered by its warning on the logger. -/
theorem save_failures_not_fatal {σ : Type} (w : World σ) (fl : Flags) (s : σ)
    (_hgen : ∃ p q params r, Event.generate p q params (.inr r) ∈ (main w fl s).trace)
    (hdir : Event.mkdirAll fl.output perm0755 none ∈ (main w fl s).trace) :
    (main w fl s).exit = 0 ∧
    Event.stdout "\nDone!\n" ∈ (main w fl s).trace ∧
    (∀ msg, Event.logFatal msg ∉ (main w fl s).trace) ∧
    (∀ r d e, Event.saveFrames r d (some e) ∈ (main w fl s).trace →
      Event.logPrintf ("Warning: Failed to save frames: " ++ e) ∈ (main w fl s).trace) ∧
    (∀ r p e, Event.saveGIF r p (some e) ∈ (main w fl s).trace →
      Event.logPrintf ("Warning: Failed to save GIF: " ++ e) ∈ (main w fl s).trace) := by
  obtain ⟨h0, hdone, hfatal⟩ := completes_of_output_dir w fl s hdir
  refine ⟨h0, hdone, hfatal, ?_, ?_⟩
  · intro r d e he
    obtain ⟨pre, post, hsplit⟩ := List.append_of_mem he
    have key := allSplits_spec _ _ [] (warningAfter_all w fl s) pre _ post hsplit
    simp only [warningAfter] at key
    rw [hsplit]
    simp [mem_of_head? key]
  · intro r p e he
    obtain ⟨pre, post, hsplit⟩ := List.append_of_mem he
    have key := allSplits_spec _ _ [] (warningAfter_all w fl s) pre _ post hsplit
    simp only [warningAfter] at key
    rw [hsplit]
    simp [mem_of_head? key]

/-- Witness for C4: `-gif out/a.gif` in a world where both saves fail. -/
theorem save_failures_not_fatal_witness :
    (main (scripted savesFailScript) gifFlags 0).exit = 0 ∧
    Event.stdout "\nDone!\n" ∈ (main (scripted savesFailScript) gifFlags 0).trace ∧
    Event.logPrintf "Warning: Failed to save frames: disk full" ∈
      (main (scripted savesFailScript) gifFlags 0).trace ∧
    Event.logPrintf "Warning: Failed to save GIF: disk full" ∈
      (main (scripted savesFailScript) gifFlags 0).trace :=
  have h := save_failures_not_fatal (scripted savesFailScript) gifFlags 0
    ⟨1, gifFlags.prompt, mkParams (scripted savesFailScript) gifFlags,
      { handle := 2, FrameCount := 65, FPS := 24 }, by decide⟩ (by decide)
  ⟨h.1, h.2.1,
    h.2.2.2.1 { handle := 2, FrameCount := 65, FPS := 24 } "./output" "disk full" (by decide),
    h.2.2.2.2 { handle := 2, FrameCount := 65, FPS := 24 } "out/a.gif" "disk full" (by decide)⟩

theorem generatedLineAfter_of {σ : Type} (w : World σ) (fl : Flags) (s : σ)
    (hw : ∀ p q params s r s1, w.generate p q params s = (.inr r, s1) →
      r.FrameCount = params.NumFrames ∧ r.FPS = params.FrameRate) :
    AllSplits (fun _ e post => generatedLineAfter fl.frames fl.fps post e) []
      (main w fl s).trace := by
  simp only [main, pipelineStage, saveStage, gifStage, emit, fatal]
  repeat' split
  any_goals have hres := hw _ _ _ _ _ _ (by assumption)
  all_goals simp_all [AllSplits, generatedLineAfter, generatedLine, mkParams]

theorem asSpecified_generate {σ : Type} (w : World σ) :
    ∀ p q params s r s1, w.asSpecified.generate p q params s = (.inr r, s1) →
      r.FrameCount = params.NumFrames ∧ r.FPS = params.FrameRate := by
  intro p q params s r s1 h
  simp only [World.asSpecified, specGenerate] at h
  split at h
  · simp only [Prod.mk.injEq, Sum.inr.injEq] at h
    obtain ⟨rfl, _⟩ := h
    exact ⟨rfl, rfl⟩
  · simp at h

theorem request_and_generate_of_exit_zero {σ : Type} (w : World σ) (fl : Flags) (s : σ) :
    (main w fl s).exit = 0 →
    Event.stdout (requestLine fl) ∈ (main w fl s).trace ∧
    ∃ p r, Event.generate p fl.prompt (mkParams w fl) (.inr r) ∈ (main w fl s).trace := by
  simp only [main, pipelineStage, saveStage, gifStage, emit, fatal]
  repeat' split
  all_goals simp [requestLine]

theorem closeDiscipline_all {σ : Type} (w : World σ) (fl : Flags) (s : σ) :
    AllSplits (fun pre e _ => closeDiscipline pre e) [] (main w fl s).trace := by
  simp only [main, pipelineStage, saveStage, gifStage, emit, fatal]
  repeat' split
  all_goals simp [AllSplits, closeDiscipline]

theorem noCloseWhenFatal_all {σ : Type} (w : World σ) (fl : Flags) (s : σ) :
    AllSplits (fun _ e _ => noCloseWhenFatal (main w fl s).exit e) [] (main w fl s).trace := by
  simp only [main, pipelineStage, saveStage, gifStage, emit, fatal]
  repeat' split
  all_goals simp [AllSplits, noCloseWhenFatal, Event.isClose]

theorem no_close_of_exit_one {σ : Type} (w : World σ) (fl : Flags) (s : σ)
    (h1 : (main w fl s).exit = 1) : ∀ e ∈ (main w fl s).trace, e.isClose = false := by
  intro e he
  obtain ⟨pre, post, hsplit⟩ := List.append_of_mem he
  exact allSplits_spec _ _ [] (noCloseWhenFatal_all w fl s) pre e post hsplit h1

theorem reaches_pipeline_of_accepted {σ : Type} (w : World σ) (fl : Flags) (s : σ)
    (hd : dimsRejected fl.height fl.width = false)
    (hv : Event.isVideoAvailable true ∈ (main w fl s).trace) :
    ∃ res, Event.newVideoPipeline { ModelID := fl.model, CacheDir := fl.cache } res ∈
      (main w fl s).trace := by
  revert hv
  simp only [main, pipelineStage, emit, fatal, hd]
  repeat' split
  all_goals simp_all

/-- C8.  With `pipeline.Generate` as the specification describes it, a run
that completes (exit status 0) for requested `frames = n` and `fps = f` prints
the request line "Resolution: WxH, n frames @ f fps" and, directly after the
successful `Generate` call made with `NumFrames = n` and `FrameRate = f`, the
line "Generated n frames at f fps". -/
theorem summary_reports_request {σ : Type} (w : World σ) (fl : Flags) (s : σ)
    (hok : (main w.asSpecified fl s).exit = 0) :
    Event.stdout (requestLine fl) ∈ (main w.asSpecified fl s).trace ∧
    ∃ pre p params r post, (main w.asSpecified fl s).trace =
      pre ++ Event.generate p fl.prompt params (.inr r) ::
        Event.stdout (generatedLine fl.frames fl.fps) :: post ∧
      params.NumFrames = fl.frames ∧ params.FrameRate = fl.fps := by
  obtain ⟨hreq, p, r, hgen⟩ := request_and_generate_of_exit_zero w.asSpecified fl s hok
  refine ⟨hreq, ?_⟩
  obtain ⟨pre, post, hsplit⟩ := List.append_of_mem hgen
  have key := allSplits_spec _ _ []
    (generatedLineAfter_of w.asSpecified fl s (asSpecified_generate w)) pre _ post hsplit
  simp only [generatedLineAfter] at key
  cases post with
  | nil => simp at key
  | cons a post =>
    simp only [List.head?_cons, Option.some.injEq] at key
    subst key
    exact ⟨pre, p, _, r, post, hsplit, rfl, rfl⟩

/-- Witness for C8: `frames=65`, `fps=24` (the flag defaults) in a world where
every call succeeds. -/
theorem summary_reports_request_witness :
    (main (scripted okScript).asSpecified defaultFlags 0).exit = 0 ∧
    Event.stdout "Resolution: 704x512, 65 frames @ 24 fps\n" ∈
      (main (scripted okScript).asSpecified defaultFlags 0).trace ∧
    ∃ pre p params r post, (main (scripted okScript).asSpecified defaultFlags 0).trace =
      pre ++ Event.generate p defaultFlags.prompt params (.inr r) ::
        Event.stdout "Generated 65 frames at 24 fps\n" :: post ∧
      params.NumFrames = 65 ∧ params.FrameRate = 24 :=
  ⟨by decide, summary_reports_request (scripted okScript) defaultFlags 0 (by decide)⟩

/-- C9, at the failing inputs.  With the default flags: when
`pipeline.Generate` fails, the pipeline has been acquired, the run ends with
exit status 1 and no `Close` call is made; when `os.MkdirAll` on the output
directory fails, the pipeline and the result have both been acquired, the run
ends with exit status 1 and no `Close` call is made. -/
theorem acquired_not_closed_on_fatal :
    (Event.newVideoPipeline { ModelID := defaultFlags.model, CacheDir := defaultFlags.cache }
        (.inr 1) ∈ (main (scripted generateFailsScript) defaultFlags 0).trace ∧
      (main (scripted generateFailsScript) defaultFlags 0).exit = 1 ∧
      (main (scripted generateFailsScript) defaultFlags 0).trace.getLast? =
        some (Event.logFatal "Video generation failed: out of memory") ∧
      ∀ e ∈ (main (scripted generateFailsScript) defaultFlags 0).trace, e.isClose = false) ∧
    (Event.newVideoPipeline { ModelID := defaultFlags.model, CacheDir := defaultFlags.cache }
        (.inr 1) ∈ (main (scripted mkdirFailsScript) defaultFlags 0).trace ∧
      Event.generate 1 defaultFlags.prompt (mkParams (scripted mkdirFailsScript) defaultFlags)
        (.inr { handle := 2, FrameCount := 65, FPS := 24 }) ∈
        (main (scripted mkdirFailsScript) defaultFlags 0).trace ∧
      (main (scripted mkdirFailsScript) defaultFlags 0).exit = 1 ∧
      ∀ e ∈ (main (scripted mkdirFailsScript) defaultFlags 0).trace, e.isClose = false) := by
  decide

/-- The part of C9 that holds in every run: a `Close` call is made on a
resource that was acquired earlier in the run, and no `Close` of a resource of
the same kind comes before it. -/
theorem close_only_acquired_once {σ : Type} (w : World σ) (fl : Flags) (s : σ)
    (pre post : List Event) (e : Event) (h : (main w fl s).trace = pre ++ e :: post) :
    closeDiscipline pre e := by
  simpa using allSplits_spec _ _ [] (closeDiscipline_all w fl s) pre e post h

/-- C10.  The dimension test of line 37 is false exactly when 32 divides both
`height` and `width`; it is false for the defaults `512` and `704` and for
`height = 0`, `width = -32`; and a run whose dimensions pass the test goes on to
call `candle.NewVideoPipeline` once `candle.IsVideoAvailable` has returned true. -/
theorem dims_check_exact :
    (∀ h w : Int, dimsRejected h w = false ↔ (32 : Int) ∣ h ∧ (32 : Int) ∣ w) ∧
    dimsRejected defaultFlags.height defaultFlags.width = false ∧
    dimsRejected 0 (-32) = false ∧
    (∀ (σ : Type) (w : World σ) (fl : Flags) (s : σ),
      (32 : Int) ∣ fl.height → (32 : Int) ∣ fl.width →
      Event.isVideoAvailable true ∈ (main w fl s).trace →
      ∃ res, Event.newVideoPipeline { ModelID := fl.model, CacheDir := fl.cache } res ∈
        (main w fl s).trace) := by
  refine ⟨dimsRejected_eq_false_iff, by decide, by decide, ?_⟩
  intro σ w fl s hh hw hv
  exact reaches_pipeline_of_accepted w fl s ((dimsRejected_eq_false_iff _ _).mpr ⟨hh, hw⟩) hv

/-- Witness for C10: `-height 0 -width -32` reaches `candle.NewVideoPipeline`. -/
theorem dims_check_exact_witness :
    ∃ res, Event.newVideoPipeline
        { ModelID := zeroHeightFlags.model, CacheDir := zeroHeightFlags.cache } res ∈
      (main (scripted okScript) zeroHeightFlags 0).trace :=
  dims_check_exact.2.2.2 Nat (scripted okScript) zeroHeightFlags 0
    (by decide) (by decide) (by decide)

/-- The line of line 77 is built from the fields of the result, not from the
flags: in a world whose `Generate` returns a result reporting 64 frames at 30
fps, the default request (65 frames, 24 fps) is answered by "Generated 64
frames at 30 fps". -/
theorem generated_line_follows_result :
    Event.stdout "Resolution: 704x512, 65 frames @ 24 fps\n" ∈
      (main (scripted otherCountScript) defaultFlags 0).trace ∧
    Event.stdout "Generated 64 frames at 30 fps\n" ∈
      (main (scripted otherCountScript) defaultFlags 0).trace ∧
    (main (scripted otherCountScript) defaultFlags 0).exit = 0 := by
  decide

/-! ## The recording world follows the run -/

theorem recording_init {σ : Type} (w : World σ) (s : σ) (log : List Event) :
    (recording w).init (s, log) = ((w.init s).1, (w.init s).2, log ++ [Event.init (w.init s).1]) :=
  rfl

theorem recording_version {σ : Type} (w : World σ) (s : σ) (log : List Event) :
    (recording w).version (s, log) =
      ((w.version s).1, (w.version s).2, log ++ [Event.version (w.version s).1]) :=
  rfl

theorem recording_isVideoAvailable {σ : Type} (w : World σ) (s : σ) (log : List Event) :
    (recording w).isVideoAvailable (s, log) =
      ((w.isVideoAvailable s).1, (w.isVideoAvailable s).2,
        log ++ [Event.isVideoAvailable (w.isVideoAvailable s).1]) :=
  rfl

theorem recording_newVideoPipeline {σ : Type} (w : World σ) (cfg : VideoConfig) (s : σ)
    (log : List Event) :
    (recording w).newVideoPipeline cfg (s, log) =
      ((w.newVideoPipeline cfg s).1, (w.newVideoPipeline cfg s).2,
        log ++ [Event.newVideoPipeline cfg (w.newVideoPipeline cfg s).1]) :=
  rfl

theorem recording_generate {σ : Type} (w : World σ) (p : Pipeline) (q : String)
    (params : VideoGenerationParams) (s : σ) (log : List Event) :
    (recording w).generate p q params (s, log) =
      ((w.generate p q params s).1, (w.generate p q params s).2,
        log ++ [Event.generate p q params (w.generate p q params s).1]) :=
  rfl

theorem recording_mkdirAll {σ : Type} (w : World σ) (path : String) (perm : Nat) (s : σ)
    (log : List Event) :
    (recording w).mkdirAll path perm (s, log) =
      ((w.mkdirAll path perm s).1, (w.mkdirAll path perm s).2,
        log ++ [Event.mkdirAll path perm (w.mkdirAll path perm s).1]) :=
  rfl

theorem recording_saveFrames {σ : Type} (w : World σ) (r : VideoResult) (dir : String) (s : σ)
    (log : List Event) :
    (recording w).saveFrames r dir (s, log) =
      ((w.saveFrames r dir s).1, (w.saveFrames r dir s).2,
        log ++ [Event.saveFrames r dir (w.saveFrames r dir s).1]) :=
  rfl

theorem recording_saveGIF {σ : Type} (w : World σ) (r : VideoResult) (path : String) (s : σ)
    (log : List Event) :
    (recording w).saveGIF r path (s, log) =
      ((w.saveGIF r path s).1, (w.saveGIF r path s).2,
        log ++ [Event.saveGIF r path (w.saveGIF r path s).1]) :=
  rfl

theorem mkParams_recording {σ : Type} (w : World σ) (fl : Flags) :
    mkParams (recording w) fl = mkParams w fl :=
  rfl

theorem recording_fmtF1 {σ : Type} (w : World σ) : (recording w).fmtF1 = w.fmtF1 :=
  rfl

theorem gifStage_recording {σ : Type} (w : World σ) (fl : Flags) (p : Pipeline)
    (r : VideoResult) (s : σ) (log : List Event) :
    gifStage (recording w) fl p r (s, log) = recordedOutcome (gifStage w fl p r s) log := by
  simp only [gifStage, recording, recordedOutcome, emit]
  by_cases hg : (fl.gif != "") = true
  · by_cases hc : (w.filepathDir fl.gif != "." && w.filepathDir fl.gif != "") = true
    · rcases h1 : w.mkdirAll (w.filepathDir fl.gif) perm0755 s with ⟨_ | e, s1⟩ <;>
      rcases h2 : w.saveGIF r fl.gif s1 with ⟨_ | e2, s2⟩ <;>
      simp [hg, hc, h1, h2, Event.isCall]
    · rcases h2 : w.saveGIF r fl.gif s with ⟨_ | e2, s2⟩ <;>
      simp [hg, hc, h2, Event.isCall]
  · simp [hg, Event.isCall]

theorem saveStage_recording {σ : Type} (w : World σ) (fl : Flags) (p : Pipeline)
    (r : VideoResult) (s : σ) (log : List Event) :
    saveStage (recording w) fl p r (s, log) = recordedOutcome (saveStage w fl p r s) log := by
  simp only [saveStage, emit, fatal]
  rcases h1 : w.mkdirAll fl.output perm0755 s with ⟨_ | e, s1⟩
  · rcases h2 : w.saveFrames r fl.output s1 with ⟨_ | e2, s2⟩ <;>
    simp [recording_mkdirAll, recording_saveFrames, h1, h2, gifStage_recording, recordedOutcome,
      Event.isCall]
  · simp [recording_mkdirAll, h1, recordedOutcome, Event.isCall]

theorem pipelineStage_recording {σ : Type} (w : World σ) (fl : Flags) (s : σ)
    (log : List Event) :
    pipelineStage (recording w) fl (s, log) = recordedOutcome (pipelineStage w fl s) log := by
  simp only [pipelineStage, emit, fatal]
  rcases h1 : w.newVideoPipeline { ModelID := fl.model, CacheDir := fl.cache } s
    with ⟨e | p, s1⟩
  · simp [recording_newVideoPipeline, recording_fmtF1, h1, recordedOutcome, Event.isCall]
  · rcases h2 : w.generate p fl.prompt (mkParams w fl) s1 with ⟨e | r, s2⟩
    · simp [recording_newVideoPipeline, recording_generate, recording_fmtF1, mkParams_recording,
        h1, h2, recordedOutcome, Event.isCall]
    · simp [recording_newVideoPipeline, recording_generate, recording_fmtF1, mkParams_recording,
        h1, h2, saveStage_recording, recordedOutcome, Event.isCall]

theorem main_recording {σ : Type} (w : World σ) (fl : Flags) (s : σ) (log : List Event) :
    main (recording w) fl (s, log) = recordedOutcome (main w fl s) log := by
  simp only [main, emit, fatal]
  rcases h1 : w.init s with ⟨_ | e, s1⟩
  · rcases h2 : w.version s1 with ⟨v, s2⟩
    rcases h3 : w.isVideoAvailable s2 with ⟨_ | _, s3⟩
    · simp [recording_init, recording_version, recording_isVideoAvailable, h1, h2, h3,
        recordedOutcome, Event.isCall]
    · by_cases hd : dimsRejected fl.height fl.width = true
      · simp [recording_init, recording_version, recording_isVideoAvailable, h1, h2, h3, hd,
          recordedOutcome, Event.isCall]
      · simp [recording_init, recording_version, recording_isVideoAvailable, h1, h2, h3, hd,
          pipelineStage_recording, recordedOutcome, Event.isCall]
  · simp [recording_init, h1, recordedOutcome, Event.isCall]

theorem callLog_eq {σ : Type} (w : World σ) (fl : Flags) (s : σ) :
    callLog w fl s = (main w fl s).trace.filter Event.isCall := by
  simp [callLog, main_recording, recordedOutcome]

theorem split_of_filter_split (p : Event → Bool) :
    ∀ (l pre1 post1 : List Event) (e : Event), l.filter p = pre1 ++ e :: post1 →
      ∃ pre post, l = pre ++ e :: post ∧ pre.filter p = pre1 ∧ post.filter p = post1 := by
  intro l pre1 post1 e h
  obtain ⟨l1, l2, hl, h1, h2⟩ := List.filter_eq_append_iff.mp h
  obtain ⟨m1, m2, hm, hnone, _, hm2⟩ := List.filter_eq_cons_iff.mp h2
  refine ⟨l1 ++ m1, m2, ?_, ?_, hm2⟩
  · rw [hl, hm, List.append_assoc]
  · rw [List.filter_append, h1]
    have : m1.filter p = [] := List.filter_eq_nil_iff.mpr (by simpa using hnone)
    rw [this, List.append_nil]

/-! ## The claims about the recorded calls -/

/-- The part of C9 that holds on a normal return: when the exit status is 0 the
last two calls the world recorded are `result.Close` and `pipeline.Close`, in
that order, on the result and the pipeline acquired earlier in the run, and
they are the only `Close` calls. -/
theorem closes_on_normal_return {σ : Type} (w : World σ) (fl : Flags) (s : σ)
    (h0 : (main w fl s).exit = 0) :
    ∃ p r, (callLog w fl s).getLast? = some (Event.pipelineClose p) ∧
      (callLog w fl s).dropLast.getLast? = some (Event.resultClose r) ∧
      (∃ cfg, Event.newVideoPipeline cfg (.inr p) ∈ callLog w fl s) ∧
      (∃ q params, Event.generate p q params (.inr r) ∈ callLog w fl s) ∧
      (callLog w fl s).countP Event.isClose = 2 := by
  rw [callLog_eq]
  revert h0
  simp only [main, pipelineStage, saveStage, gifStage, emit, fatal]
  repeat' split
  all_goals simp [Event.isCall, Event.isClose, List.countP_cons]

/-- The calls the world records in a complete run with `-gif out/a.gif` where
every call succeeds. -/
theorem callLog_of_complete_run :
    callLog (scripted okScript) gifFlags 0 =
      headCalls ++
        [Event.mkdirAll "./output" perm0755 none,
         Event.saveFrames sampleResult "./output" none,
         Event.mkdirAll "out" perm0755 none,
         Event.saveGIF sampleResult "out/a.gif" none,
         Event.resultClose sampleResult,
         Event.pipelineClose 1] := by
  decide

/-- C6.  Among the calls the world itself recorded during a run, whatever the
flag values, every save attempt (`result.SaveFrames` or `result.SaveGIF`) comes
after an `os.MkdirAll(output, 0755)` call that returned no error: the save is
made on a world state that already holds the successful creation of the output
directory. -/
theorem output_dir_created_before_save {σ : Type} (w : World σ) (fl : Flags) (s : σ)
    (pre post : List Event) (e : Event)
    (h : callLog w fl s = pre ++ e :: post) (he : e.isSave = true) :
    Event.mkdirAll fl.output perm0755 none ∈ pre := by
  rw [callLog_eq] at h
  have key : AllSplits (fun pre e _ => outputDirBefore fl pre e) []
      ((main w fl s).trace.filter Event.isCall) := by
    simp only [main, pipelineStage, saveStage, gifStage, emit, fatal]
    repeat' split
    all_goals simp [AllSplits, outputDirBefore, Event.isSave, Event.isCall]
  have hsplit := allSplits_spec _ _ [] key pre e post h
  simp only [List.nil_append, outputDirBefore] at hsplit
  exact hsplit he

/-- Witness for C6: the frame save of the run with the default flags; and, in
the world where creating the output directory fails, the failed `os.MkdirAll`
is the last call recorded, so no save is made there. -/
theorem output_dir_created_before_save_witness :
    callLog (scripted okScript) defaultFlags 0 =
      (headCalls ++ [Event.mkdirAll "./output" perm0755 none]) ++
        Event.saveFrames sampleResult "./output" none ::
        [Event.resultClose sampleResult, Event.pipelineClose 1] ∧
    Event.mkdirAll "./output" perm0755 none ∈
      headCalls ++ [Event.mkdirAll "./output" perm0755 none] ∧
    callLog (scripted mkdirFailsScript) defaultFlags 0 =
      headCalls ++ [Event.mkdirAll "./output" perm0755 (some "permission denied")] :=
  ⟨by decide,
    output_dir_created_before_save (scripted okScript) defaultFlags 0
      (headCalls ++ [Event.mkdirAll "./output" perm0755 none])
      [Event.resultClose sampleResult, Event.pipelineClose 1]
      (Event.saveFrames sampleResult "./output" none)
      (by decide) rfl,
    by decide⟩

/-- C5.  Among the calls the world itself recorded during a run: when the `gif`
flag is not empty, a `result.SaveFrames` call that returned an error is followed
by a `result.SaveGIF` call on the same result with the flag's path; and
`result.SaveGIF` is called exactly in the runs in which `result.SaveFrames` was
called and the `gif` flag is not empty, whatever `SaveFrames` returned. -/
theorem gif_save_after_failed_frames {σ : Type} (w : World σ) (fl : Flags) (s : σ) :
    (∀ (pre post : List Event) (r : VideoResult) (d e : String),
      fl.gif ≠ "" → callLog w fl s = pre ++ Event.saveFrames r d (some e) :: post →
      ∃ x, Event.saveGIF r fl.gif x ∈ post) ∧
    ((∃ r p x, Event.saveGIF r p x ∈ callLog w fl s) ↔
      (fl.gif ≠ "" ∧ ∃ r d x, Event.saveFrames r d x ∈ callLog w fl s)) := by
  rw [callLog_eq]
  constructor
  · intro pre post r d e hg h
    have key : AllSplits (fun _ e post => gifSaveAfter fl post e) []
        ((main w fl s).trace.filter Event.isCall) := by
      simp only [main, pipelineStage, saveStage, gifStage, emit, fatal]
      repeat' split
      all_goals simp_all [AllSplits, gifSaveAfter, Event.isCall]
    have hsplit := allSplits_spec _ _ [] key pre _ post h
    simp only [gifSaveAfter] at hsplit
    exact hsplit hg
  · simp only [main, pipelineStage, saveStage, gifStage, emit, fatal]
    repeat' split
    all_goals simp_all [Event.isCall]

/-- Witness for C5: `-gif out/a.gif` in a world where `result.SaveFrames` fails. -/
theorem gif_save_after_failed_frames_witness :
    gifFlags.gif ≠ "" ∧
    callLog (scripted saveFramesFailsScript) gifFlags 0 =
      (headCalls ++ [Event.mkdirAll "./output" perm0755 none]) ++
        Event.saveFrames sampleResult "./output" (some "disk full") ::
        [Event.mkdirAll "out" perm0755 none,
         Event.saveGIF sampleResult "out/a.gif" none,
         Event.resultClose sampleResult,
         Event.pipelineClose 1] ∧
    ∃ x, Event.saveGIF sampleResult "out/a.gif" x ∈
      [Event.mkdirAll "out" perm0755 none,
       Event.saveGIF sampleResult "out/a.gif" none,
       Event.resultClose sampleResult,
       Event.pipelineClose 1] :=
  ⟨by decide, by decide,
    (gif_save_after_failed_frames (scripted saveFramesFailsScript) gifFlags 0).1
      (headCalls ++ [Event.mkdirAll "./output" perm0755 none])
      [Event.mkdirAll "out" perm0755 none,
       Event.saveGIF sampleResult "out/a.gif" none,
       Event.resultClose sampleResult,
       Event.pipelineClose 1]
      sampleResult "./output" "disk full" (by decide) (by decide)⟩

/-- C7, as amended.  Among the calls the world itself recorded during a run:
a `result.SaveGIF` call is made with the `gif` flag's path, which is not empty;
the call made just before it is the `os.MkdirAll` of `filepath.Dir` of that
path with mode `0755`, whatever its outcome, unless that directory is `.` or
empty, in which case the call made just before it is `result.SaveFrames`, so no
creation was attempted.  And an `os.MkdirAll` that fails after the output
directory has been created is the GIF directory's: the next call is
`result.SaveGIF` with the flag's path, the warning is written to the logger,
no fatal message is written and the exit status is 0. -/
theorem gif_dir_attempted_before_save {σ : Type} (w : World σ) (fl : Flags) (s : σ) :
    (∀ (pre post : List Event) (r : VideoResult) (path : String) (x : Option String),
      callLog w fl s = pre ++ Event.saveGIF r path x :: post →
      path = fl.gif ∧ fl.gif ≠ "" ∧
      (w.filepathDir fl.gif ≠ "." → w.filepathDir fl.gif ≠ "" →
        ∃ err, pre.getLast? = some (Event.mkdirAll (w.filepathDir fl.gif) perm0755 err)) ∧
      (w.filepathDir fl.gif = "." ∨ w.filepathDir fl.gif = "" →
        ∃ y, pre.getLast? = some (Event.saveFrames r fl.output y))) ∧
    (∀ (pre post : List Event) (p : String) (m : Nat) (err : String),
      callLog w fl s = pre ++ Event.mkdirAll p m (some err) :: post →
      Event.mkdirAll fl.output perm0755 none ∈ pre →
      p = w.filepathDir fl.gif ∧
      (∃ r x, post.head? = some (Event.saveGIF r fl.gif x)) ∧
      Event.logPrintf ("Warning: Failed to create GIF directory: " ++ err) ∈
        (main w fl s).trace ∧
      (∀ msg, Event.logFatal msg ∉ (main w fl s).trace) ∧
      (main w fl s).exit = 0) := by
  rw [callLog_eq]
  constructor
  · intro pre post r path x h
    have key : AllSplits (fun pre e _ => gifDirBeforeSave w fl pre e) []
        ((main w fl s).trace.filter Event.isCall) := by
      simp only [main, pipelineStage, saveStage, gifStage, emit, fatal]
      repeat' split
      all_goals simp_all [AllSplits, gifDirBeforeSave, Event.isCall]
    have hsplit := allSplits_spec _ _ [] key pre _ post h
    simpa [gifDirBeforeSave] using hsplit
  · intro pre post p m err h hout
    have key : AllSplits (fun pre e post => gifSaveAfterDirFailure w fl pre post e) []
        ((main w fl s).trace.filter Event.isCall) := by
      simp only [main, pipelineStage, saveStage, gifStage, emit, fatal]
      repeat' split
      all_goals simp [AllSplits, gifSaveAfterDirFailure, Event.isCall]
    have hsplit := allSplits_spec _ _ [] key pre _ post h
    simp only [List.nil_append, gifSaveAfterDirFailure] at hsplit
    obtain ⟨hp, hnext⟩ := hsplit hout
    obtain ⟨tpre, tpost, ht, hpre, _⟩ := split_of_filter_split _ _ _ _ _ h
    have hout2 : Event.mkdirAll fl.output perm0755 none ∈ tpre := by
      rw [← hpre] at hout
      exact (List.mem_filter.mp hout).1
    have hfail := allSplits_spec _ _ [] (mkdirFailureOutcome_all w fl s) tpre _ tpost ht
    simp only [List.nil_append, mkdirFailureOutcome] at hfail
    obtain ⟨h0, _, ⟨_, _, _, hpost⟩, _, _⟩ := hfail.1 hout2
    refine ⟨hp, hnext, ?_, ?_, h0⟩
    · rw [ht, hpost]
      simp
    · rcases exit_cases w fl s with h1 | ⟨_, _, hnf⟩
      · rw [h0] at h1
        exact absurd h1.1 (by decide)
      · exact hnf

/-- Witness for C7 as amended: `-gif out/a.gif` where every call succeeds,
`-gif a.gif` where `filepath.Dir` answers `.`, and `-gif out/a.gif` where
creating `out` fails. -/
theorem gif_dir_attempted_before_save_witness :
    (∃ err, (headCalls ++
        [Event.mkdirAll "./output" perm0755 none,
         Event.saveFrames sampleResult "./output" none,
         Event.mkdirAll "out" perm0755 none]).getLast? =
      some (Event.mkdirAll "out" perm0755 err)) ∧
    (callLog (scripted dotDirScript) plainGifFlags 0 =
      (headCalls ++
        [Event.mkdirAll "./output" perm0755 none,
         Event.saveFrames sampleResult "./output" none]) ++
        Event.saveGIF sampleResult "a.gif" none ::
        [Event.resultClose sampleResult, Event.pipelineClose 1]) ∧
    (∃ y, (headCalls ++
        [Event.mkdirAll "./output" perm0755 none,
         Event.saveFrames sampleResult "./output" none]).getLast? =
      some (Event.saveFrames sampleResult "./output" y)) ∧
    (callLog (scripted gifDirFailsScript) gifFlags 0 =
      (headCalls ++
        [Event.mkdirAll "./output" perm0755 none,
         Event.saveFrames sampleResult "./output" none]) ++
        Event.mkdirAll "out" perm0755 (some "permission denied") ::
        [Event.saveGIF sampleResult "out/a.gif" none,
         Event.resultClose sampleResult,
         Event.pipelineClose 1]) ∧
    Event.logPrintf "Warning: Failed to create GIF directory: permission denied" ∈
      (main (scripted gifDirFailsScript) gifFlags 0).trace ∧
    (main (scripted gifDirFailsScript) gifFlags 0).exit = 0 :=
  have h1 := (gif_dir_attempted_before_save (scripted okScript) gifFlags 0).1
    (headCalls ++
      [Event.mkdirAll "./output" perm0755 none,
       Event.saveFrames sampleResult "./output" none,
       Event.mkdirAll "out" perm0755 none])
    [Event.resultClose sampleResult, Event.pipelineClose 1]
    sampleResult "out/a.gif" none (by decide)
  have h2 := (gif_dir_attempted_before_save (scripted dotDirScript) plainGifFlags 0).1
    (headCalls ++
      [Event.mkdirAll "./output" perm0755 none,
       Event.saveFrames sampleResult "./output" none])
    [Event.resultClose sampleResult, Event.pipelineClose 1]
    sampleResult "a.gif" none (by decide)
  have h3 := (gif_dir_attempted_before_save (scripted gifDirFailsScript) gifFlags 0).2
    (headCalls ++
      [Event.mkdirAll "./output" perm0755 none,
       Event.saveFrames sampleResult "./output" none])
    [Event.saveGIF sampleResult "out/a.gif" none,
     Event.resultClose sampleResult,
     Event.pipelineClose 1]
    "out" perm0755 "permission denied" (by decide) (by decide)
  ⟨h1.2.2.1 (by decide) (by decide), by decide, h2.2.2.2 (Or.inl (by decide)), by decide,
    h3.2.2.1, h3.2.2.2.2⟩

end VideoExample
